import Mathlib

/-!
Verification development for the vation-ai-search-poc2 repository.

The repository holds several near-identical revisions of one Vercel handler
(`api/ask.js`).  We refer to them as:
  * `V1`  : the first handler in `src/api/ask.js` (lines 1-224);
  * `V2`  : the second handler in `src/api/ask.js` (lines 225-468, whose
            handler body is truncated in the file after URL selection);
  * `P0`  : `src/unnamed/part_000`;
  * `P1`  : `src/unnamed/part_001`;
  * `P2`  : `src/unnamed/part_002` (the "DEMO SAFE" revision).

The embedding is shallow: network effects (`fetch`, the Gemini endpoint,
WHATWG `new URL` resolution, `Date.now`) are oracles passed as parameters;
everything the JavaScript computes itself (regex HTML stripping, cache logic,
retry loops, validation, response assembly) is translated function by
function.  JavaScript strings are modelled as Lean `String`s (lists of
characters; UTF-16 surrogate pairs are not distinguished), and the regex
replacements are implemented as character scanners that mirror the exact
regexes in the source.  Scanners that jump forward after a replacement use a
fuel argument initialised with the input length; every step consumes at least
one character, so this fuel never runs out.
-/

/-! ### JavaScript string primitives -/

/-- Character class of the JS regex `\s` (also the set stripped by
`String.prototype.trim`): ASCII whitespace, NBSP, the Unicode space
separators, line separators and the BOM. -/
def isJsWs (c : Char) : Bool :=
  c = ' ' || c = '\t' || c = '\n' || c = '\x0b' || c = '\x0c' || c = '\r' ||
  c.val = 0xa0 || c.val = 0x1680 || (0x2000 ≤ c.val && c.val ≤ 0x200a) ||
  c.val = 0x2028 || c.val = 0x2029 || c.val = 0x202f || c.val = 0x205f ||
  c.val = 0x3000 || c.val = 0xfeff

/-- `String.prototype.trim` on a character list. -/
def jsTrimL (l : List Char) : List Char :=
  ((l.dropWhile isJsWs).reverse.dropWhile isJsWs).reverse

/-- `String.prototype.trim`. -/
def jsTrim (s : String) : String := ⟨jsTrimL s.data⟩

/-- `String.prototype.toLowerCase`, restricted to the ASCII range the
handlers rely on (preset names and keyword matching). -/
def jsToLower (s : String) : String := ⟨s.data.map Char.toLower⟩

/-- `s.slice(0, n)`. -/
def jsSlice0 (n : Nat) (s : String) : String := ⟨s.data.take n⟩

/-- JS truthiness test for an optional string request field: `undefined`
and the empty string are falsy (`!x`). -/
def jsFalsy (o : Option String) : Bool := o.getD "" == ""

/-- The JS idiom `x || d` for an optional string `x`: yields `d` when `x`
is `undefined` or the empty string. -/
def jsOr (o : Option String) (d : String) : String :=
  if o.getD "" = "" then d else o.getD ""

/-- Case-insensitive literal prefix match; on success returns the remainder
of the input after the pattern (the pattern is given in lower case). -/
def matchCIPre : List Char → List Char → Option (List Char)
  | [], l => some l
  | _ :: _, [] => none
  | p :: ps, c :: cs => if p.toLower = c.toLower then matchCIPre ps cs else none

/-- Case-sensitive literal prefix match, returning the remainder. -/
def matchPre : List Char → List Char → Option (List Char)
  | [], l => some l
  | _ :: _, [] => none
  | p :: ps, c :: cs => if p = c then matchPre ps cs else none

/-- `String.prototype.includes` on character lists. -/
def includesSub (needle : List Char) : List Char → Bool
  | [] => needle.isEmpty
  | c :: rest => needle.isPrefixOf (c :: rest) || includesSub needle rest

/-- JS `\w`: ASCII letters, digits and underscore. -/
def isWordChar (c : Char) : Bool := c.isAlphanum || c = '_'

/-- JS regex test `\bw\b` (for a pattern `w` made of word characters, such
as `cx` / `ex`): scans every position, requiring a non-word character (or
the string edge) on both sides of the occurrence. -/
def hasWordAux (w : List Char) (prev : Option Char) : List Char → Bool
  | [] => false
  | c :: rest =>
    ((match prev with | none => true | some p => !isWordChar p) &&
      (match matchPre w (c :: rest) with
       | some [] => true
       | some (d :: _) => !isWordChar d
       | none => false))
    || hasWordAux w (some c) rest

/-- JS regex test `\bw\b` over a whole string. -/
def hasWordIso (w l : List Char) : Bool := hasWordAux w none l

/-! ### Regex-replacement scanners -/

/-- Drop characters up to and including the first `>`; if there is none,
drop everything (this realises the `(>|$)` alternative of the tag regex). -/
def dropThroughGt : List Char → List Char
  | [] => []
  | c :: rest => if c = '>' then rest else dropThroughGt rest

/-- Search for the first case-insensitive occurrence of `cls` and return the
remainder of the input after it (the lazy `[\s\S]*?cls` search). -/
def findCloseCI (cls : List Char) : List Char → Option (List Char)
  | [] => none
  | c :: rest =>
    match matchCIPre cls (c :: rest) with
    | some after => some after
    | none => findCloseCI cls rest

/-- Fuelled scanner for `replace(/opn[\s\S]*?cls/gi, " ")` (used for the
`<script>`, `<style>`, `<nav>`, `<footer>` and `<header>` block regexes):
at each position, if `opn` matches and `cls` occurs later, the whole block
is replaced by one space and scanning resumes after `cls`; otherwise the
character is kept.  Fuel `l.length` suffices: every step consumes at least
one character. -/
def removeCIBlocksF (opn cls : List Char) : Nat → List Char → List Char
  | 0, l => l
  | Nat.succ fuel, l =>
    match l with
    | [] => []
    | c :: rest =>
      match matchCIPre opn (c :: rest) with
      | some after =>
        match findCloseCI cls after with
        | some rem => ' ' :: removeCIBlocksF opn cls fuel rem
        | none => c :: removeCIBlocksF opn cls fuel rest
      | none => c :: removeCIBlocksF opn cls fuel rest

/-- `replace(/opn[\s\S]*?cls/gi, " ")`. -/
def removeCIBlocks (opn cls : List Char) (l : List Char) : List Char :=
  removeCIBlocksF opn cls l.length l

/-- Fuelled scanner for `replace(/<\/?[^>]+(>|$)/g, " ")` (the tag stripper
of `stripHtml` in V2 and P2).  A `<` starts a match iff it is followed by at
least one non-`>` character (the optional `\/` is subsumed by `[^>]+`); the
match then extends through the first `>` or to the end of the string. -/
def stripTagsDollarF : Nat → List Char → List Char
  | 0, l => l
  | Nat.succ fuel, l =>
    match l with
    | [] => []
    | c :: rest =>
      if c = '<' then
        match rest with
        | [] => ['<']
        | d :: _ =>
          if d = '>' then '<' :: stripTagsDollarF fuel rest
          else ' ' :: stripTagsDollarF fuel (dropThroughGt rest)
      else c :: stripTagsDollarF fuel rest

/-- `replace(/<\/?[^>]+(>|$)/g, " ")`. -/
def stripTagsDollar (l : List Char) : List Char := stripTagsDollarF l.length l

/-- After a `<`, try to consume `[^>]+>` and return the remainder after the
closing `>`; `none` when the next character is `>` or no `>` follows. -/
def tagSpanAux : List Char → Option (List Char)
  | [] => none
  | c :: rest => if c = '>' then some rest else tagSpanAux rest

/-- See `tagSpanAux`; the first character after `<` must be a non-`>`. -/
def tagSpan : List Char → Option (List Char)
  | [] => none
  | c :: rest => if c = '>' then none else tagSpanAux rest

/-- Fuelled scanner for `replace(/<[^>]+>/g, " ")` (the tag stripper of V1's
`extractMainText` and P1's `stripHtml`): here a match requires a closing
`>`, otherwise the `<` is kept literally. -/
def stripTagsStrictF : Nat → List Char → List Char
  | 0, l => l
  | Nat.succ fuel, l =>
    match l with
    | [] => []
    | c :: rest =>
      if c = '<' then
        match tagSpan rest with
        | some rem => ' ' :: stripTagsStrictF fuel rem
        | none => '<' :: stripTagsStrictF fuel rest
      else c :: stripTagsStrictF fuel rest

/-- `replace(/<[^>]+>/g, " ")`. -/
def stripTagsStrict (l : List Char) : List Char := stripTagsStrictF l.length l

/-- One pass of `replace(/\s+/g, " ")`: the first whitespace of a run emits
one space, the rest of the run is dropped. -/
def collapseWsA (prevWs : Bool) : List Char → List Char
  | [] => []
  | c :: rest =>
    if isJsWs c then
      (if prevWs then [] else [' ']) ++ collapseWsA true rest
    else c :: collapseWsA false rest

/-- `replace(/\s+/g, " ")`. -/
def collapseWs (l : List Char) : List Char := collapseWsA false l

/-- The closing-tag alternation of P1's `stripHtml`:
`/<\/(p|div|br|li|h1|h2|h3|h4|h5)>/gi`, tried in the source order. -/
def closePatsP1 : List (List Char) :=
  ["</p>".data, "</div>".data, "</br>".data, "</li>".data,
   "</h1>".data, "</h2>".data, "</h3>".data, "</h4>".data, "</h5>".data]

/-- First pattern of the alternation matching at this position, returning
the remainder after it. -/
def matchAnyCI : List (List Char) → List Char → Option (List Char)
  | [], _ => none
  | p :: ps, l =>
    match matchCIPre p l with
    | some r => some r
    | none => matchAnyCI ps l

/-- Fuelled scanner for `replace(/<\/(p|div|br|li|h1|h2|h3|h4|h5)>/gi, "\n")`
in P1's `stripHtml`. -/
def replaceCloseF : Nat → List Char → List Char
  | 0, l => l
  | Nat.succ fuel, l =>
    match l with
    | [] => []
    | c :: rest =>
      match matchAnyCI closePatsP1 (c :: rest) with
      | some after => '\n' :: replaceCloseF fuel after
      | none => c :: replaceCloseF fuel rest

/-- `replace(/<\/(p|div|br|li|h1|h2|h3|h4|h5)>/gi, "\n")`. -/
def replaceClose (l : List Char) : List Char := replaceCloseF l.length l

/-- Fuelled scanner for `replace(/\s{2,}/g, " ")` (P1's `compact`): runs of
two or more whitespace characters become one space; a lone whitespace
character is kept unchanged. -/
def collapse2F : Nat → List Char → List Char
  | 0, l => l
  | Nat.succ fuel, l =>
    match l with
    | [] => []
    | c :: rest =>
      if isJsWs c then
        match rest with
        | [] => [c]
        | d :: rest' =>
          if isJsWs d then ' ' :: collapse2F fuel (rest'.dropWhile isJsWs)
          else c :: collapse2F fuel rest
      else c :: collapse2F fuel rest

/-- `replace(/\s{2,}/g, " ")`. -/
def collapse2 (l : List Char) : List Char := collapse2F l.length l

/-- Fuelled scanner for `replace(/\n{3,}/g, "\n\n")` (P1's `compact`). -/
def collapseNl3F : Nat → List Char → List Char
  | 0, l => l
  | Nat.succ fuel, l =>
    match l with
    | '\n' :: '\n' :: '\n' :: rest =>
      '\n' :: '\n' :: collapseNl3F fuel (rest.dropWhile (· = '\n'))
    | c :: rest => c :: collapseNl3F fuel rest
    | [] => []

/-- `replace(/\n{3,}/g, "\n\n")`. -/
def collapseNl3 (l : List Char) : List Char := collapseNl3F l.length l

/-! ### HTML-to-text functions of the source -/

/-- `stripHtml` of P2 (part_002 lines 30-37) and of V2 (ask.js lines
263-271): remove `<script>` and `<style>` blocks, strip tags with the
`(>|$)` regex, collapse whitespace and trim.  V2 guards `if (!html) return
""`, P2 uses a default parameter `html = ""`; both give `""` on `""`. -/
def stripHtml (html : String) : String :=
  if html = "" then "" else
  ⟨jsTrimL (collapseWs (stripTagsDollar
    (removeCIBlocks "<style".data "</style>".data
      (removeCIBlocks "<script".data "</script>".data html.data))))⟩

/-- `stripHtml` of P1 (part_001 lines 149-157): script/style blocks removed,
block-closing tags become newlines, remaining tags become spaces, whitespace
runs collapse to one space.  No trim (P1's `compact` trims). -/
def stripHtmlP1 (html : String) : String :=
  ⟨collapseWs (stripTagsStrict (replaceClose
    (removeCIBlocks "<style".data "</style>".data
      (removeCIBlocks "<script".data "</script>".data html.data))))⟩

/-- `compact` of P1 (part_001 lines 159-164). -/
def compact (text : String) : String :=
  ⟨jsTrimL (collapseNl3 (collapse2 text.data))⟩

/-- `extractMainText` of V1 (ask.js lines 164-174): also removes `<nav>`,
`<footer>` and `<header>` blocks, then strips tags (closing `>` required),
collapses whitespace and trims. -/
def extractMainText (html : String) : String :=
  ⟨jsTrimL (collapseWs (stripTagsStrict
    (removeCIBlocks "<header".data "</header>".data
      (removeCIBlocks "<footer".data "</footer>".data
        (removeCIBlocks "<nav".data "</nav>".data
          (removeCIBlocks "<style".data "</style>".data
            (removeCIBlocks "<script".data "</script>".data html.data)))))))⟩

/-! ### `guessTitle` (V1, ask.js lines 159-162) -/

/-- Consume `[^>]*>` and return the remainder after the `>`. -/
def tagRest : List Char → Option (List Char)
  | [] => none
  | c :: rest => if c = '>' then some rest else tagRest rest

/-- Characters the JS dot (without the `s` flag) does not match. -/
def isDotNoMatch (c : Char) : Bool :=
  c = '\n' || c = '\r' || c.val = 0x2028 || c.val = 0x2029

/-- The lazy capture `(.*?)` before `<\/title>`: collect characters until
the first case-insensitive `</title>`; fail on a line terminator or if no
close follows. -/
def captureUntilClose : List Char → Option (List Char)
  | [] => none
  | c :: rest =>
    match matchCIPre "</title>".data (c :: rest) with
    | some _ => some []
    | none =>
      if isDotNoMatch c then none
      else
        match captureUntilClose rest with
        | some cap => some (c :: cap)
        | none => none

/-- Try the whole regex `<title[^>]*>(.*?)<\/title>` (case-insensitive) at
the head of the input, returning capture group 1. -/
def titleTryAt (l : List Char) : Option (List Char) :=
  match matchCIPre "<title".data l with
  | none => none
  | some r1 =>
    match tagRest r1 with
    | none => none
    | some r2 => captureUntilClose r2

/-- `html.match(/<title[^>]*>(.*?)<\/title>/i)`: first position at which the
whole regex matches. -/
def scanTitle : List Char → Option (List Char)
  | [] => none
  | c :: rest =>
    match titleTryAt (c :: rest) with
    | some cap => some cap
    | none => scanTitle rest

/-- `guessTitle` of V1: the captured title with whitespace collapsed and
trimmed, or `""` when the regex does not match. -/
def guessTitle (html : String) : String :=
  match scanTitle html.data with
  | some cap => ⟨jsTrimL (collapseWs cap)⟩
  | none => ""

/-- `guessTitle` of P1 (part_001 lines 166-170): first 60 characters of the
already-stripped text, trimmed. -/
def guessTitleP1 (text : String) : String :=
  if text = "" then "" else jsTrim (jsSlice0 60 text)

/-! ### `detectPreset` (V2, ask.js lines 273-281) -/

/-- `detectPreset(question, preset)`: an explicitly supplied preset wins
after lower-casing and trimming; otherwise keyword matching on the
lower-cased question (`"customer experience"` or `/\bcx\b/` gives `"cx"`,
`"employee experience"` or `/\bex\b/` gives `"ex"`), defaulting to
`"core"`. -/
def detectPreset (question preset : String) : String :=
  let p := jsTrim (jsToLower preset)
  if p = "cx" || p = "ex" || p = "core" then p
  else
    let q := jsToLower question
    if includesSub "customer experience".data q.data || hasWordIso "cx".data q.data then "cx"
    else if includesSub "employee experience".data q.data || hasWordIso "ex".data q.data then "ex"
    else "core"

/-! ### URL selection -/

/-- `replace(/\/$/, "")`: remove one trailing slash (V1 line 10, P0 line 25). -/
def stripOneTrailSlash (s : String) : String :=
  match s.data.reverse with
  | '/' :: rest => ⟨rest.reverse⟩
  | _ => s

/-- `replace(/\/+$/, "")`: remove all trailing slashes (V2 line 284,
P2 line 40). -/
def stripTrailSlashes (s : String) : String :=
  ⟨(s.data.reverse.dropWhile (· = '/')).reverse⟩

/-- `pickUrls` of P2 (part_002 lines 39-46). -/
def pickUrlsP2 (siteBaseUrl preset : String) : List String :=
  let base := stripTrailSlashes siteBaseUrl
  if preset = "core" then [base ++ "/solutions/", base ++ "/offerings/"]
  else if preset = "cx" then [base ++ "/solutions/customer-experience/"]
  else if preset = "ex" then [base ++ "/solutions/employee-experience/"]
  else [base ++ "/solutions/"]

/-- `pickUrls` of V2 (ask.js lines 283-305), with the `|| "https://vation.com"`
default applied to the base URL. -/
def pickUrlsV2 (siteBaseUrl preset : String) : List String :=
  let base := stripTrailSlashes (if siteBaseUrl = "" then "https://vation.com" else siteBaseUrl)
  if preset = "cx" then [base ++ "/solutions/customer-experience/", base ++ "/solutions/"]
  else if preset = "ex" then [base ++ "/solutions/employee-experience/", base ++ "/solutions/"]
  else [base ++ "/", base ++ "/solutions/", base ++ "/offerings/"]

/-- Candidate paths of P1 (part_001 lines 41-47). -/
def candidatePathsP1 : List String :=
  ["/", "/solutions/customer-experience/", "/solutions/employee-experience/",
   "/about-vation/", "/our-culture/"]

/-! ### P2: cache, gemini call and handler (part_002) -/

/-- The response payload assembled by P2's handler (lines 134-139 and
152-159): `model` is present only in the post-Gemini payload, which the
`Option` records.  `sources` holds the entries `urls.map(u => ({url: u}))`. -/
structure Payload2 where
  answer : String
  sources : List String
  modelF : Option String
  presetF : String
deriving DecidableEq

/-- A response written by P2's `safeJson`. -/
inductive Body2
  | errB (msg : String)
  | payload (p : Payload2)
deriving DecidableEq

/-- Status plus JSON body of one P2 response. -/
structure Res2 where
  status : Nat
  body : Body2
deriving DecidableEq

/-- The module-level `CACHE` `Map`, modelled as an association list with
overwrite-on-insert semantics. -/
abbrev Cache2 := List (String × Nat × Payload2)

/-- `CACHE_TTL_MS = 10 * 60 * 1000`. -/
def cacheTtlMs : Nat := 10 * 60 * 1000

/-- `CACHE.get(key)`. -/
def cacheFind : Cache2 → String → Option (Nat × Payload2)
  | [], _ => none
  | (k, ts, p) :: rest, key => if k = key then some (ts, p) else cacheFind rest key

/-- `CACHE.delete(key)`. -/
def cacheDelete (c : Cache2) (key : String) : Cache2 :=
  c.filter (fun e => !(e.1 == key))

/-- `cacheGet` of P2 (lines 11-19): a hit older than the TTL is deleted and
reported as a miss.  Returns the possibly-updated cache alongside. -/
def cacheGet (c : Cache2) (key : String) (t : Nat) : Option Payload2 × Cache2 :=
  match cacheFind c key with
  | none => (none, c)
  | some (ts, p) => if t - ts > cacheTtlMs then (none, cacheDelete c key) else (some p, c)

/-- `cacheSet` of P2 (lines 21-23). -/
def cacheSet (c : Cache2) (key : String) (t : Nat) (p : Payload2) : Cache2 :=
  (key, t, p) :: cacheDelete c key

/-- The hardcoded `model` of P2's handler (line 123). -/
def p2Model : String := "gemini-2.0-flash"

/-- The cache key computed by P2's handler (line 124) as a function of the
request fields: only the preset (defaulted to `"core"`) and the hardcoded
model enter the template literal.  The question and model fields of the
request body are never destructured, and the base URL is unused here. -/
def handler2CacheKey (preset : Option String) : String :=
  (preset.getD "core") ++ "-" ++ p2Model

/-- P2's cache key as a function of all four request-distinguishing fields
named by the specification. -/
def handler2CacheKeyOfRequest
    (_question _siteBaseUrl : Option String) (preset : Option String)
    (_modelField : Option String) : String :=
  handler2CacheKey preset

/-- P2's `callGemini` result extraction (line 107):
`json?.candidates?.[0]?.content?.parts?.[0]?.text || null`.  The oracle
argument is the optional-chain value; `|| null` maps `""` to `null`. -/
def callGeminiP2 (raw : Option String) : Option String :=
  match raw with
  | some t => if t = "" then none else some t
  | none => none

/-- P2's `fetchPageText` (lines 48-59): `null` on any fetch failure,
otherwise `stripHtml(html).slice(0, 3500)`.  The oracle returns the raw
HTML or `none`. -/
def fetchPageTextP2 (fetchO : String → Option String) (url : String) : Option String :=
  (fetchO url).map (fun html => jsSlice0 3500 (stripHtml html))

/-- `pages.filter(Boolean)`: drops `null` and `""`. -/
def jsFilterBoolean (l : List (Option String)) : List String :=
  l.filterMap (fun o =>
    match o with
    | some s => if s = "" then none else some s
    | none => none)

/-- The fixed degraded answer of P2 when no page was usable (lines 133-140). -/
def p2UnavailMsg : String :=
  "Content is temporarily unavailable for summarization. Please refer to the listed source pages."

/-- The fixed fallback answer of P2 when Gemini yields nothing (lines 152-155). -/
def p2RetryMsg : String :=
  "The AI response could not be generated at this moment. Please retry once."

/-- Result of one P2 request: response, cache afterwards, and the number of
Gemini calls issued. -/
structure H2Out where
  res : Res2
  cache : Cache2
  geminiCalls : Nat
deriving DecidableEq

/-- P2's handler (part_002 lines 110-163).  `_question` records that the
request's question field is never read.  `fetchO` is the page-fetch oracle
(raw HTML or `none`), `geminiRaw` the Gemini oracle (see `callGeminiP2`),
`t` the value of `now()`.  Prompt construction (lines 61-82) only shapes the
outbound request, which the Gemini oracle already abstracts. -/
def handler2 (method : String) (apiKey : Bool)
    (_question siteBaseUrl preset : Option String)
    (fetchO : String → Option String) (geminiRaw : Option String)
    (c : Cache2) (t : Nat) : H2Out :=
  if method ≠ "POST" then ⟨⟨405, .errB "POST only"⟩, c, 0⟩
  else if !apiKey then ⟨⟨500, .errB "Missing GEMINI_API_KEY"⟩, c, 0⟩
  else
    let base := siteBaseUrl.getD "https://vation.com"
    let pr := preset.getD "core"
    let key := handler2CacheKey preset
    match cacheGet c key t with
    | (some data, c1) => ⟨⟨200, .payload data⟩, c1, 0⟩
    | (none, c1) =>
      let urls := pickUrlsP2 base pr
      let pages := urls.map (fetchPageTextP2 fetchO)
      let valid := jsFilterBoolean pages
      if valid.length = 0 then
        ⟨⟨200, .payload ⟨p2UnavailMsg, urls, none, pr⟩⟩, c1, 0⟩
      else
        let _sourcesText := jsSlice0 8000 (String.intercalate "\n\n" valid)
        let answer := callGeminiP2 geminiRaw
        let payload : Payload2 := ⟨jsOr answer p2RetryMsg, urls, some p2Model, pr⟩
        ⟨⟨200, .payload payload⟩, cacheSet c1 key t payload, 1⟩

/-! ### JSON serialization of a P2 response (`JSON.stringify` in `safeJson`) -/

/-- JSON string escaping for the characters that occur in this model. -/
def escJson (s : String) : String :=
  ⟨s.data.foldr (fun c acc =>
    if c = '"' then '\\' :: '"' :: acc
    else if c = '\\' then '\\' :: '\\' :: acc
    else if c = '\n' then '\\' :: 'n' :: acc
    else if c = '\r' then '\\' :: 'r' :: acc
    else if c = '\t' then '\\' :: 't' :: acc
    else c :: acc) []⟩

/-- A JSON string literal. -/
def jstrJ (s : String) : String := "\"" ++ escJson s ++ "\""

/-- `urls.map(u => ({url: u}))` serialized. -/
def sourcesJson (urls : List String) : String :=
  "[" ++ String.intercalate "," (urls.map (fun u => "\x7b\"url\":" ++ jstrJ u ++ "\x7d")) ++ "]"

/-- `JSON.stringify` of a P2 payload, in the insertion order of the object
literals in the source (`answer`, `sources`, then `model` when present,
then `preset`). -/
def payload2Json (p : Payload2) : String :=
  "\x7b\"answer\":" ++ jstrJ p.answer ++ ",\"sources\":" ++ sourcesJson p.sources ++
  (match p.modelF with
   | some m => ",\"model\":" ++ jstrJ m
   | none => "") ++
  ",\"preset\":" ++ jstrJ p.presetF ++ "\x7d"

/-- `JSON.stringify` of a P2 response body. -/
def body2Json : Body2 → String
  | .errB m => "\x7b\"error\":" ++ jstrJ m ++ "\x7d"
  | .payload p => payload2Json p

/-! ### P1: retry loop, gemini parsing, page loop and handler (part_001) -/

/-- The `{ok, status, text}` result of P1's `callOnce`. -/
structure POutcome where
  ok : Bool
  status : Nat
  text : String
deriving DecidableEq

/-- P1's retry predicate (lines 206-209): continue the loop only when
`String(result.status).startsWith("429")` or the status is 503. -/
def p1Retryable (s : Nat) : Bool :=
  "429".data.isPrefixOf (Nat.repr s).data || s == 503

/-- The `for (attempt = 0; attempt <= retries; attempt++)` loop of P1's
`callGeminiWithRetry` (lines 202-215), with the remaining iteration count
as fuel.  Returns the result together with the number of `callOnce`
invocations.  The loop exhausting returns `{ok:false, status:429, text:""}`. -/
def p1Loop (o : Nat → POutcome) : Nat → Nat → POutcome × Nat
  | _, 0 => (⟨false, 429, ""⟩, 0)
  | attempt, Nat.succ k =>
    let r := o attempt
    if r.ok then (r, 1)
    else if !p1Retryable r.status then (r, 1)
    else
      ((p1Loop o (attempt + 1) k).1, (p1Loop o (attempt + 1) k).2 + 1)

/-- `callGeminiWithRetry` of P1: the loop runs `retries + 1` times at most
(the handler passes `retries: 1`). -/
def p1CallWithRetry (o : Nat → POutcome) (retries : Nat) : POutcome × Nat :=
  p1Loop o 0 (retries + 1)

/-- The outcome of one raw call as P1's `callOnce` sees it: HTTP failure
with a status, a thrown/timeout error (mapped to status 503 by the catch
branch), or a parsed 2xx JSON whose joined candidate text is the oracle's
`Option String` (`none` when the optional chain fails). -/
inductive P1Raw
  | httpFail (status : Nat)
  | netErr
  | parsed (joined : Option String)
deriving DecidableEq

/-- `callOnce` of P1 (lines 218-251) after the platform fetch: note a parsed
response with no extractable text yields `ok: true` with `text: ""`. -/
def callOnceParse : P1Raw → POutcome
  | .httpFail s => ⟨false, s, ""⟩
  | .netErr => ⟨false, 503, ""⟩
  | .parsed t => ⟨true, 200, jsTrim (t.getD "")⟩

/-- A retrieved page of P1 (lines 55-59). -/
structure PageP1 where
  url : String
  title : String
  snippet : String
deriving DecidableEq

/-- `fetchPageText` of P1 (lines 124-147): `""` on any failure, otherwise
`compact(stripHtml(html))`. -/
def fetchPageTextP1 (fetchO : String → Option String) (url : String) : String :=
  match fetchO url with
  | none => ""
  | some html => compact (stripHtmlP1 html)

/-- P1's page loop (lines 49-61): stop at `MAX_PAGES = 4`, keep pages with
non-empty text, snippet capped at `MAX_CHARS_PER_PAGE = 2200`.  `resolve`
models `new URL(p, siteBaseUrl).toString()`.  The second component counts
fetch attempts. -/
def p1Collect (resolve : String → String) (fetchO : String → Option String) :
    List String → List PageP1 × Nat → List PageP1 × Nat
  | [], acc => acc
  | p :: rest, (pages, n) =>
    if pages.length ≥ 4 then (pages, n)
    else
      let url := resolve p
      let text := fetchPageTextP1 fetchO url
      if text ≠ "" then
        p1Collect resolve fetchO rest
          (pages ++ [⟨url, (if guessTitleP1 text = "" then url else guessTitleP1 text),
                     jsSlice0 2200 text⟩], n + 1)
      else p1Collect resolve fetchO rest (pages, n + 1)

/-- P1's degraded answer when no page could be fetched (lines 64-70). -/
def p1NoContentMsg : String :=
  "I couldn’t fetch public content from the website right now. Please try again or check if the site is blocking automated access."

/-- P1's degraded answer when Gemini fails even after the retry (lines
101-107). -/
def p1BusyMsg : String :=
  "The AI service is busy right now. Please try again in 30 seconds. (This is a temporary quota/traffic limit.)"

/-- The JSON body shapes P1 writes. -/
inductive P1Body
  | empty
  | errJ (msg : String)
  | ans (answer : String) (sources : List (String × String)) (modelUsed : Option String)
deriving DecidableEq

/-- Answer field of a P1 body, when present. -/
def p1AnswerOf : P1Body → Option String
  | .ans a _ _ => some a
  | _ => none

/-- One P1 response: status, headers set via `res.setHeader`, body, and the
outbound-call counters. -/
structure P1Out where
  status : Nat
  headers : List (String × String)
  body : P1Body
  fetchCalls : Nat
  geminiCalls : Nat
deriving DecidableEq

/-- The three CORS headers P1 sets on every response (lines 6-8). -/
def corsP1 : List (String × String) :=
  [("Access-Control-Allow-Origin", "*"),
   ("Access-Control-Allow-Methods", "POST, OPTIONS"),
   ("Access-Control-Allow-Headers", "Content-Type")]

/-- P1's post-model response assembly (lines 100-113): a failed (not-`ok`)
retry result degrades to the busy message, a successful one forwards
`geminiResponse.text` verbatim and adds `modelUsed`. -/
def p1Finalize (pages : List PageP1) (model : String) (r : POutcome)
    (n : Nat) (fc : Nat) : P1Out :=
  if !r.ok then
    ⟨200, corsP1, .ans p1BusyMsg (pages.map fun p => (p.title, p.url)) none, fc, n⟩
  else
    ⟨200, corsP1, .ans r.text (pages.map fun p => (p.title, p.url)) (some model), fc, n⟩

/-- P1's handler (part_001 lines 4-122).  Oracles: `resolve` for `new URL`,
`fetchO` for page fetches (raw HTML or `none`), `geminiO` for the per-attempt
`callOnce` results; `envModel` is `process.env.GEMINI_MODEL`.  The document
try/catch (line 114) only catches platform exceptions, which the total model
does not produce. -/
def handlerP1 (method : String) (question siteBaseUrl : Option String)
    (apiKey : Bool) (envModel : Option String) (resolve : String → String)
    (fetchO : String → Option String) (geminiO : Nat → POutcome) : P1Out :=
  if method = "OPTIONS" then ⟨200, corsP1, .empty, 0, 0⟩
  else if method ≠ "POST" then ⟨405, corsP1, .errJ "Method Not Allowed", 0, 0⟩
  else if jsFalsy question || jsFalsy siteBaseUrl then
    ⟨400, corsP1, .errJ "Missing question or siteBaseUrl", 0, 0⟩
  else if !apiKey then ⟨500, corsP1, .errJ "Server missing GEMINI_API_KEY", 0, 0⟩
  else
    let model := jsOr envModel "gemini-2.0-flash"
    let pf := p1Collect resolve fetchO candidatePathsP1 ([], 0)
    if pf.1.length = 0 then ⟨200, corsP1, .ans p1NoContentMsg [] none, pf.2, 0⟩
    else
      let rn := p1CallWithRetry geminiO 1
      p1Finalize pf.1 model rn.1 rn.2 pf.2

/-- The word cap the P1 prompt demands of the model (line 82:
`"- Word limit: 120 words max."`); V2's and P2's prompts state the same
limit ("Max 120 words"). -/
def p1WordCap : Nat := 120

/-- Word counter used to check the word-cap claim: the number of maximal
runs of non-whitespace characters. -/
def wordCountL (inWord : Bool) : List Char → Nat
  | [] => 0
  | c :: rest =>
    if isJsWs c then wordCountL false rest
    else (if inWord then 0 else 1) + wordCountL true rest

/-- Number of words of a string. -/
def wordCount (s : String) : Nat := wordCountL false s.data

/-! ### V2: gemini client with retry and validation prefix (ask.js 366-468) -/

/-- Outcome of one raw V2 `callGemini` exchange: HTTP error status, or a
parsed OK response whose joined candidate text is the oracle value (`none`
when the optional chain fails). -/
inductive GemRawV2
  | httpErr (status : Nat)
  | okJson (text : Option String)
deriving DecidableEq

/-- Result of V2's `callGemini`: the extracted text, or a thrown error
carrying `e.status || 0` (an HTTP error keeps its status; the
`"Empty Gemini response"` error has none, hence 0). -/
inductive GemResV2
  | ok (text : String)
  | err (status : Nat)
deriving DecidableEq

/-- `callGemini` of V2 (ask.js lines 366-415): an HTTP error is thrown with
its status; a parsed response whose trimmed text is empty is thrown as
`"Empty Gemini response"`. -/
def callGeminiV2 : GemRawV2 → GemResV2
  | .httpErr s => .err s
  | .okJson t =>
    let txt := (t.map jsTrim).getD ""
    if txt = "" then .err 0 else .ok txt

/-- `callGeminiWithRetry` of V2 (ask.js lines 417-428): one retry, after a
1200 ms backoff, exactly when the first attempt failed with status 429 or
≥ 500.  Returns (result, attempts made, whether the backoff sleep ran). -/
def callGeminiWithRetryV2 (o : Nat → GemRawV2) : GemResV2 × Nat × Bool :=
  match callGeminiV2 (o 0) with
  | .ok t => (.ok t, 1, false)
  | .err s =>
    if s = 429 || 500 ≤ s then (callGeminiV2 (o 1), 2, true)
    else (.err s, 1, false)

/-- An early V2 response (or the continuation's marker result). -/
structure RV2 where
  status : Nat
  headers : List (String × String)
  tag : String
  netCalls : Nat
deriving DecidableEq

/-- `setCors` of V2 (ask.js lines 250-254). -/
def corsV2 : List (String × String) :=
  [("Access-Control-Allow-Origin", "*"),
   ("Access-Control-Allow-Methods", "POST, OPTIONS"),
   ("Access-Control-Allow-Headers", "Content-Type, Authorization")]

/-- The `Content-Type` header `safeJson` adds. -/
def ctJson : List (String × String) :=
  [("Content-Type", "application/json; charset=utf-8")]

/-- V2's handler prefix (ask.js lines 430-466): CORS, OPTIONS preflight,
method check, API-key check, JSON body parse, trimming and defaulting of the
fields, question validation, model defaulting and preset detection.  The
file truncates inside the handler shortly after URL selection, so everything
past that point is the continuation `rest`, which receives the normalized
question, base URL, model, preset and selected URLs.  `tag` carries the
error message of early exits. -/
def handlerV2 (method : String) (apiKey : Bool) (parseOk : Bool)
    (question siteBaseUrl model preset : Option String)
    (rest : String → String → String → String → List String → RV2) : RV2 :=
  if method = "OPTIONS" then ⟨204, corsV2, "", 0⟩
  else if method ≠ "POST" then
    ⟨405, corsV2 ++ [("Allow", "POST, OPTIONS")] ++ ctJson, "Method not allowed. Use POST.", 0⟩
  else if !apiKey then
    ⟨500, corsV2 ++ ctJson, "Missing GEMINI_API_KEY in Vercel env vars.", 0⟩
  else if !parseOk then ⟨400, corsV2 ++ ctJson, "Invalid JSON body.", 0⟩
  else
    let q := jsTrim (jsOr question "")
    let s := jsTrim (jsOr siteBaseUrl "https://vation.com")
    if q = "" then ⟨400, corsV2 ++ ctJson, "Missing \x27question\x27.", 0⟩
    else
      let m := jsTrim (jsOr model "gemini-2.0-flash")
      let pr := detectPreset q (preset.getD "")
      rest q s m pr (pickUrlsV2 s pr)

/-! ### V1: page loop, validation and handler (ask.js 1-48) -/

/-- A document V1 accumulates (lines 21-25). -/
structure DocV1 where
  title : String
  url : String
  snippet : String
deriving DecidableEq

/-- V1's page loop (lines 14-28): skip unfetchable pages and pages whose
extracted text is shorter than 200 characters; keep at most 4 documents;
snippets capped at 1400 characters; title falls back to the URL.  The
second accumulator component counts fetch attempts. -/
def v1Collect (fetchO : String → Option String) :
    List String → List DocV1 × Nat → List DocV1 × Nat
  | [], acc => acc
  | u :: rest, (docs, n) =>
    match fetchO u with
    | none => v1Collect fetchO rest (docs, n + 1)
    | some html =>
      let text := extractMainText html
      if text = "" || text.length < 200 then v1Collect fetchO rest (docs, n + 1)
      else
        let docs' := docs ++ [⟨(if guessTitle html = "" then u else guessTitle html), u,
                              jsSlice0 1400 text⟩]
        if docs'.length ≥ 4 then (docs', n + 1)
        else v1Collect fetchO rest (docs', n + 1)

/-- V1's degraded answer when no document was collected (lines 30-36). -/
def v1NoContentMsg : String :=
  "I couldn’t fetch enough public content from the website to answer confidently. Try again with different keywords, or provide a few page URLs to include."

/-- One V1 response.  V1 sets no headers at all. -/
structure V1Out where
  status : Nat
  headers : List (String × String)
  answer : Option String
  sources : List (String × String)
  errorMsg : Option String
  fetchCalls : Nat
  geminiCalls : Nat
deriving DecidableEq

/-- V1's success response (lines 38-43): the `askGemini` result is returned
verbatim as `answer`, sources are title/url pairs. -/
def v1Finalize (docs : List DocV1) (answer : String) (fc : Nat) : V1Out :=
  ⟨200, [], some answer, docs.map (fun d => (d.title, d.url)), none, fc, 1⟩

/-- V1's handler (ask.js lines 1-48).  URL discovery (`getCandidateUrls` and
`pickTopUrls`, which themselves fetch sitemaps after validation) is
abstracted by the `picked` parameter; `askG` is the `askGemini` oracle
(that function always resolves to a string).  Note V1 returns 405 for every
non-POST method, OPTIONS included, and never sets CORS headers. -/
def handlerV1 (method : String) (question siteBaseUrl : Option String)
    (picked : List String) (fetchO : String → Option String) (askG : String) : V1Out :=
  if method ≠ "POST" then ⟨405, [], none, [], some "Use POST", 0, 0⟩
  else if jsFalsy question || jsFalsy siteBaseUrl then
    ⟨400, [], none, [], some "Missing question or siteBaseUrl", 0, 0⟩
  else
    let df := v1Collect fetchO picked ([], 0)
    if df.1.length = 0 then ⟨200, [], some v1NoContentMsg, [], none, df.2, 0⟩
    else v1Finalize df.1 askG df.2

/-! ### P0: validation prefix (part_000 lines 9-25) -/

/-- An early P0 response or the continuation's marker. -/
structure RP0 where
  status : Nat
  tag : String
  netCalls : Nat
deriving DecidableEq

/-- P0's handler prefix: method check, question check (the base URL is
*not* validated — a missing `siteBaseUrl` is defaulted to
`https://vation.com`), API-key check; the continuation receives the
normalized base. -/
def handlerP0 (method : String) (question siteBaseUrl : Option String)
    (apiKey : Bool) (rest : String → RP0) : RP0 :=
  if method ≠ "POST" then ⟨405, "Use POST", 0⟩
  else if jsFalsy question then ⟨400, "Missing question", 0⟩
  else if !apiKey then ⟨500, "Missing GEMINI_API_KEY", 0⟩
  else rest (stripOneTrailSlash (jsOr siteBaseUrl "https://vation.com"))

/-! ### Concrete oracles used by the witnesses and counterexamples -/

/-- A fetch oracle on which every page fetch fails. -/
def cFetchNone : String → Option String := fun _ => none

/-- A fetch oracle returning one small fixed page. -/
def cFetchHtml : String → Option String :=
  fun _ => some "<p>Vation builds experience platforms for enterprises.</p>"

/-- A URL-resolution oracle for `new URL(p, "https://vation.com")`. -/
def cResolve : String → String := fun p => "https://vation.com" ++ p

/-- A Gemini oracle whose parsed response has no extractable text. -/
def cGemEmpty : Nat → POutcome := fun _ => callOnceParse (.parsed none)

/-- A model answer of 121 words. -/
def longAnswer : String := String.intercalate " " (List.replicate 121 "w")

/-- A Gemini oracle answering with 121 words. -/
def cGemLong : Nat → POutcome := fun _ => ⟨true, 200, longAnswer⟩

/-- A Gemini call-once oracle that always fails with HTTP 500. -/
def o500 : Nat → POutcome := fun _ => ⟨false, 500, ""⟩

/-- A marker continuation for V2: reaching it proves the request passed
validation (and, in the source, goes on to fetch pages). -/
def restMark : String → String → String → String → List String → RV2 :=
  fun _ _ _ _ _ => ⟨200, [], "proceeded", 1⟩

/-- A marker continuation for P0. -/
def restMarkP0 : String → RP0 := fun _ => ⟨200, "proceeded", 1⟩

/-- First-request fetch oracle of the cache scenario. -/
def cFetchA : String → Option String :=
  fun _ => some "<p>Vation provides customer and employee experience solutions.</p>"

/-- First-request Gemini oracle of the cache scenario. -/
def cGemA : Option String := some "Grounded summary of the site."

/-- Second-request fetch oracle (everything fails; a cache hit must not
depend on it). -/
def cFetchB : String → Option String := fun _ => none

/-- Second-request Gemini oracle (no text; a cache hit must not call it). -/
def cGemB : Option String := none

/-! ## Helper lemmas -/

theorem length_dropWhile_le (p : Char → Bool) (l : List Char) :
    (l.dropWhile p).length ≤ l.length := by
  induction l with
  | nil => simp
  | cons c rest ih =>
    by_cases h : p c
    · simp only [List.dropWhile, h, if_true, List.length_cons]
      omega
    · simp only [List.dropWhile, h, if_false, List.length_cons]
      omega

theorem jsTrimL_length_le (l : List Char) : (jsTrimL l).length ≤ l.length := by
  unfold jsTrimL
  calc ((l.dropWhile isJsWs).reverse.dropWhile isJsWs).reverse.length
      = ((l.dropWhile isJsWs).reverse.dropWhile isJsWs).length := List.length_reverse _
    _ ≤ (l.dropWhile isJsWs).reverse.length := length_dropWhile_le _ _
    _ = (l.dropWhile isJsWs).length := List.length_reverse _
    _ ≤ l.length := length_dropWhile_le _ _

theorem collapseWsA_length_le (l : List Char) : ∀ b, (collapseWsA b l).length ≤ l.length := by
  induction l with
  | nil => intro b; simp [collapseWsA]
  | cons c rest ih =>
    intro b
    simp only [collapseWsA]
    split
    · have := ih true
      split <;> simp <;> omega
    · simpa using ih false

theorem dropThroughGt_length_le (l : List Char) : (dropThroughGt l).length ≤ l.length := by
  induction l with
  | nil => simp [dropThroughGt]
  | cons c rest ih =>
    simp only [dropThroughGt]
    split
    · simp only [List.length_cons]
      omega
    · simp only [List.length_cons]
      omega

theorem matchCIPre_length (p : List Char) :
    ∀ l r, matchCIPre p l = some r → r.length + p.length = l.length := by
  induction p with
  | nil => intro l r h; simp [matchCIPre] at h; simp [h]
  | cons x ps ih =>
    intro l r h
    cases l with
    | nil => simp [matchCIPre] at h
    | cons c cs =>
      simp only [matchCIPre] at h
      split at h
      · have := ih cs r h
        simp only [List.length_cons]
        omega
      · exact absurd h (by simp)

theorem findCloseCI_length (cls : List Char) :
    ∀ l r, findCloseCI cls l = some r → r.length ≤ l.length := by
  intro l
  induction l with
  | nil => intro r h; simp [findCloseCI] at h
  | cons c rest ih =>
    intro r h
    simp only [findCloseCI] at h
    split at h
    · rename_i after heq
      have := matchCIPre_length cls (c :: rest) after heq
      simp only [Option.some.injEq] at h
      subst h
      simp only [List.length_cons] at this ⊢
      omega
    · exact Nat.le_trans (ih r h) (Nat.le_succ _)

theorem removeCIBlocksF_length_le (opn cls : List Char) (hop : opn ≠ []) :
    ∀ fuel l, (removeCIBlocksF opn cls fuel l).length ≤ l.length := by
  intro fuel
  induction fuel with
  | zero => intro l; simp [removeCIBlocksF]
  | succ n ih =>
    intro l
    cases l with
    | nil => simp [removeCIBlocksF]
    | cons c rest =>
      simp only [removeCIBlocksF]
      split
      · rename_i after hm
        split
        · rename_i rem hf
          have h1 := matchCIPre_length opn (c :: rest) after hm
          have h2 := findCloseCI_length cls after rem hf
          have h3 := ih rem
          have hop' : 0 < opn.length := List.length_pos.mpr hop
          simp only [List.length_cons] at h1 ⊢
          omega
        · simp only [List.length_cons]
          exact Nat.succ_le_succ (ih rest)
      · simp only [List.length_cons]
        exact Nat.succ_le_succ (ih rest)

theorem removeCIBlocks_length_le (opn cls : List Char) (hop : opn ≠ []) (l : List Char) :
    (removeCIBlocks opn cls l).length ≤ l.length :=
  removeCIBlocksF_length_le opn cls hop l.length l

theorem stripTagsDollarF_length_le : ∀ fuel l, (stripTagsDollarF fuel l).length ≤ l.length := by
  intro fuel
  induction fuel with
  | zero => intro l; simp [stripTagsDollarF]
  | succ n ih =>
    intro l
    cases l with
    | nil => simp [stripTagsDollarF]
    | cons c rest =>
      simp only [stripTagsDollarF]
      split
      · cases rest with
        | nil => simp
        | cons d rest' =>
          by_cases hd : d = '>'
          · simp only [if_pos hd, List.length_cons]
            exact Nat.succ_le_succ (ih (d :: rest'))
          · simp only [if_neg hd, List.length_cons]
            have h1 := dropThroughGt_length_le (d :: rest')
            have h2 := ih (dropThroughGt (d :: rest'))
            simp only [List.length_cons] at h1
            omega
      · simp only [List.length_cons]
        exact Nat.succ_le_succ (ih rest)

theorem stripTagsDollar_length_le (l : List Char) : (stripTagsDollar l).length ≤ l.length :=
  stripTagsDollarF_length_le l.length l

theorem tagSpanAux_length : ∀ l r, tagSpanAux l = some r → r.length ≤ l.length := by
  intro l
  induction l with
  | nil => intro r h; simp [tagSpanAux] at h
  | cons c rest ih =>
    intro r h
    simp only [tagSpanAux] at h
    split at h
    · simp only [Option.some.injEq] at h
      subst h
      simp only [List.length_cons]
      omega
    · have := ih r h
      simp only [List.length_cons]
      omega

theorem tagSpan_length : ∀ l r, tagSpan l = some r → r.length ≤ l.length := by
  intro l r h
  cases l with
  | nil => simp [tagSpan] at h
  | cons c rest =>
    simp only [tagSpan] at h
    split at h
    · exact absurd h (by simp)
    · have := tagSpanAux_length rest r h
      simp only [List.length_cons]
      omega

theorem stripTagsStrictF_length_le : ∀ fuel l, (stripTagsStrictF fuel l).length ≤ l.length := by
  intro fuel
  induction fuel with
  | zero => intro l; simp [stripTagsStrictF]
  | succ n ih =>
    intro l
    cases l with
    | nil => simp [stripTagsStrictF]
    | cons c rest =>
      simp only [stripTagsStrictF]
      split
      · split
        · rename_i rem hsp
          have h1 := tagSpan_length rest rem hsp
          have h2 := ih rem
          simp only [List.length_cons]
          omega
        · simp only [List.length_cons]
          exact Nat.succ_le_succ (ih rest)
      · simp only [List.length_cons]
        exact Nat.succ_le_succ (ih rest)

theorem stripTagsStrict_length_le (l : List Char) : (stripTagsStrict l).length ≤ l.length :=
  stripTagsStrictF_length_le l.length l

/-! ## Claim C9 -/

/-- Claim C9: for every input string, including malformed and adversarial
markup, each cited HTML-stripping function — `stripHtml` (shared by the P2
handler, part_002 lines 30-37, and V2, ask.js lines 263-271) and V1's
`extractMainText` (ask.js lines 164-174) — returns a plain-text string
whose length is at most the input's length.  The Lean embeddings are total
functions, mirroring the fact that the chains of `String.prototype.replace`
calls cannot throw on any string input, well-formed or not. -/
theorem claim_c9_stripHtml_total_and_shrinking (s : String) :
    (stripHtml s).length ≤ s.length ∧ (extractMainText s).length ≤ s.length := by
  constructor
  · unfold stripHtml
    split
    · simp
    · show (jsTrimL (collapseWs (stripTagsDollar (removeCIBlocks "<style".data "</style>".data
        (removeCIBlocks "<script".data "</script>".data s.data))))).length ≤ s.data.length
      calc (jsTrimL (collapseWs (stripTagsDollar (removeCIBlocks "<style".data "</style>".data
              (removeCIBlocks "<script".data "</script>".data s.data))))).length
          ≤ (collapseWs (stripTagsDollar (removeCIBlocks "<style".data "</style>".data
              (removeCIBlocks "<script".data "</script>".data s.data)))).length :=
            jsTrimL_length_le _
        _ ≤ (stripTagsDollar (removeCIBlocks "<style".data "</style>".data
              (removeCIBlocks "<script".data "</script>".data s.data))).length :=
            collapseWsA_length_le _ _
        _ ≤ (removeCIBlocks "<style".data "</style>".data
              (removeCIBlocks "<script".data "</script>".data s.data)).length :=
            stripTagsDollar_length_le _
        _ ≤ (removeCIBlocks "<script".data "</script>".data s.data).length :=
            removeCIBlocks_length_le _ _ (by decide) _
        _ ≤ s.data.length := removeCIBlocks_length_le _ _ (by decide) _
  · show (jsTrimL (collapseWs (stripTagsStrict
      (removeCIBlocks "<header".data "</header>".data
        (removeCIBlocks "<footer".data "</footer>".data
          (removeCIBlocks "<nav".data "</nav>".data
            (removeCIBlocks "<style".data "</style>".data
              (removeCIBlocks "<script".data "</script>".data s.data)))))))).length
      ≤ s.data.length
    exact Nat.le_trans (jsTrimL_length_le _)
      (Nat.le_trans (collapseWsA_length_le _ _)
      (Nat.le_trans (stripTagsStrict_length_le _)
      (Nat.le_trans (removeCIBlocks_length_le _ _ (by decide) _)
      (Nat.le_trans (removeCIBlocks_length_le _ _ (by decide) _)
      (Nat.le_trans (removeCIBlocks_length_le _ _ (by decide) _)
      (Nat.le_trans (removeCIBlocks_length_le _ _ (by decide) _)
      (removeCIBlocks_length_le _ _ (by decide) _)))))))

/-! ## Claim C1 -/

theorem v1Collect_allFail (fetchO : String → Option String) (hf : ∀ u, fetchO u = none) :
    ∀ (us : List String) (docs : List DocV1) (n : Nat),
      v1Collect fetchO us (docs, n) = (docs, n + us.length) := by
  intro us
  induction us with
  | nil => intro docs n; simp [v1Collect]
  | cons u rest ih =>
    intro docs n
    simp only [v1Collect, hf u]
    rw [ih docs (n + 1)]
    congr 1
    simp only [List.length_cons]
    omega

theorem p1Collect_allFail (resolve : String → String) (fetchO : String → Option String)
    (hf : ∀ u, fetchO u = none) :
    ∀ (ps : List String) (n : Nat),
      p1Collect resolve fetchO ps ([], n) = ([], n + ps.length) := by
  intro ps
  induction ps with
  | nil => intro n; simp [p1Collect]
  | cons p rest ih =>
    intro n
    have htext : fetchPageTextP1 fetchO (resolve p) = "" := by
      simp [fetchPageTextP1, hf (resolve p)]
    simp only [p1Collect, htext]
    rw [if_neg (by norm_num), if_neg (by simp)]
    rw [ih (n + 1)]
    congr 1
    simp only [List.length_cons]
    omega

theorem jsFilterBoolean_allFail (fetchO : String → Option String)
    (hf : ∀ u, fetchO u = none) :
    ∀ urls : List String, jsFilterBoolean (urls.map (fetchPageTextP2 fetchO)) = [] := by
  intro urls
  induction urls with
  | nil => simp [jsFilterBoolean]
  | cons u rest ih =>
    have : fetchPageTextP2 fetchO u = none := by simp [fetchPageTextP2, hf u]
    simp only [List.map_cons, jsFilterBoolean, List.filterMap_cons, this] at ih ⊢
    exact ih

/-- Claim C1: whenever every candidate page fetch fails (no page yields
usable text), each handler that the claim cites — P2 (part_002 lines
133-140), V1 (ask.js lines 30-36) and P1 (part_001 lines 64-70) — returns a
success response with status 200 carrying its fixed "could not fetch
content" answer and an empty (V1, P1) or URL-only (P2) sources list; none
of them returns a 5xx for this condition.  For P2 the claim concerns the
fetch path, so the request is assumed not to be answered from the cache. -/
theorem claim_c1_total_fetch_failure
    (question siteBaseUrl : Option String) (picked : List String)
    (fetchO : String → Option String) (askG : String)
    (envModel : Option String) (resolve : String → String) (geminiO : Nat → POutcome)
    (q2 s2 pr2 gem2 : Option String) (c : Cache2) (t : Nat)
    (hq : jsFalsy question = false) (hs : jsFalsy siteBaseUrl = false)
    (hf : ∀ u, fetchO u = none)
    (hmiss : (cacheGet c (handler2CacheKey pr2) t).1 = none) :
    handlerV1 "POST" question siteBaseUrl picked fetchO askG
      = ⟨200, [], some v1NoContentMsg, [], none, picked.length, 0⟩ ∧
    handlerP1 "POST" question siteBaseUrl true envModel resolve fetchO geminiO
      = ⟨200, corsP1, .ans p1NoContentMsg [] none, 5, 0⟩ ∧
    (handler2 "POST" true q2 s2 pr2 fetchO gem2 c t).res
      = ⟨200, .payload ⟨p2UnavailMsg,
          pickUrlsP2 (s2.getD "https://vation.com") (pr2.getD "core"), none,
          pr2.getD "core"⟩⟩ ∧
    (handler2 "POST" true q2 s2 pr2 fetchO gem2 c t).geminiCalls = 0 := by
  refine ⟨?_, ?_, ?_⟩
  · simp only [handlerV1]
    rw [if_neg (by decide), if_neg (by simp [hq, hs])]
    rw [v1Collect_allFail fetchO hf picked [] 0]
    simp
  · simp only [handlerP1]
    rw [if_neg (by decide), if_neg (by decide), if_neg (by simp [hq, hs]),
        if_neg (by decide)]
    rw [p1Collect_allFail resolve fetchO hf candidatePathsP1 0]
    simp [candidatePathsP1]
  · have hc : cacheGet c (handler2CacheKey pr2) t
        = (none, (cacheGet c (handler2CacheKey pr2) t).2) := by
      rcases hcg : cacheGet c (handler2CacheKey pr2) t with ⟨o, c1⟩
      rw [hcg] at hmiss
      simp at hmiss
      simp [hmiss]
    have hres : handler2 "POST" true q2 s2 pr2 fetchO gem2 c t
        = ⟨⟨200, .payload ⟨p2UnavailMsg,
            pickUrlsP2 (s2.getD "https://vation.com") (pr2.getD "core"), none,
            pr2.getD "core"⟩⟩, (cacheGet c (handler2CacheKey pr2) t).2, 0⟩ := by
      simp only [handler2]
      rw [if_neg (by decide), if_neg (by decide), hc]
      simp [jsFilterBoolean_allFail fetchO hf]
    rw [hres]
    exact ⟨rfl, rfl⟩

/-- Witness for C1 at a concrete request with an all-failing fetch oracle. -/
theorem claim_c1_witness :
    handlerV1 "POST" (some "q") (some "https://x.example") ["https://x.example/"] cFetchNone ""
      = ⟨200, [], some v1NoContentMsg, [], none, 1, 0⟩ ∧
    handlerP1 "POST" (some "q") (some "https://x.example") true none cResolve cFetchNone cGemEmpty
      = ⟨200, corsP1, .ans p1NoContentMsg [] none, 5, 0⟩ ∧
    (handler2 "POST" true none none none cFetchNone none [] 0).res
      = ⟨200, .payload ⟨p2UnavailMsg, pickUrlsP2 "https://vation.com" "core", none, "core"⟩⟩ ∧
    (handler2 "POST" true none none none cFetchNone none [] 0).geminiCalls = 0 :=
  claim_c1_total_fetch_failure (some "q") (some "https://x.example") ["https://x.example/"]
    cFetchNone "" none cResolve cGemEmpty none none none none [] 0
    (by decide) (by decide) (fun _ => rfl) (by decide)

/-! ## Claim C2 -/

/-- Claim C2 (amended): a missing or empty `question` yields status 400 with
no outbound call in every variant that validates it, and V1 and P1 also
return 400 when `siteBaseUrl` is missing or empty; but V2 (ask.js lines
456-459) and P0 (part_000 lines 16-25) validate only `question` and
substitute the default base `https://vation.com` for a missing
`siteBaseUrl`, proceeding to the retrieval stage.  In the 400 branches the
call counters are zero and the continuation is unused, so no network
activity precedes the rejection. -/
theorem claim_c2_validation
    (question siteBaseUrl model preset : Option String) (picked : List String)
    (fetchO : String → Option String) (askG : String) (apiKey : Bool)
    (envModel : Option String) (resolve : String → String) (geminiO : Nat → POutcome)
    (rest : String → String → String → String → List String → RV2)
    (rest0 : String → RP0) :
    ((jsFalsy question || jsFalsy siteBaseUrl) = true →
      handlerV1 "POST" question siteBaseUrl picked fetchO askG
        = ⟨400, [], none, [], some "Missing question or siteBaseUrl", 0, 0⟩) ∧
    ((jsFalsy question || jsFalsy siteBaseUrl) = true →
      handlerP1 "POST" question siteBaseUrl apiKey envModel resolve fetchO geminiO
        = ⟨400, corsP1, .errJ "Missing question or siteBaseUrl", 0, 0⟩) ∧
    (jsTrim (jsOr question "") = "" →
      handlerV2 "POST" true true question siteBaseUrl model preset rest
        = ⟨400, corsV2 ++ ctJson, "Missing \x27question\x27.", 0⟩) ∧
    (jsFalsy question = true →
      handlerP0 "POST" question siteBaseUrl apiKey rest0 = ⟨400, "Missing question", 0⟩) ∧
    (jsTrim (jsOr question "") ≠ "" →
      handlerV2 "POST" true true question none model preset rest
        = rest (jsTrim (jsOr question "")) (jsTrim (jsOr none "https://vation.com"))
            (jsTrim (jsOr model "gemini-2.0-flash"))
            (detectPreset (jsTrim (jsOr question "")) (preset.getD ""))
            (pickUrlsV2 (jsTrim (jsOr none "https://vation.com"))
              (detectPreset (jsTrim (jsOr question "")) (preset.getD "")))) ∧
    (jsFalsy question = false →
      handlerP0 "POST" question none apiKey rest0
        = if apiKey then rest0 (stripOneTrailSlash (jsOr none "https://vation.com"))
          else ⟨500, "Missing GEMINI_API_KEY", 0⟩) := by
  refine ⟨?_, ?_, ?_, ?_, ?_, ?_⟩
  · intro h
    simp only [handlerV1]
    rw [if_neg (by decide), if_pos h]
  · intro h
    simp only [handlerP1]
    rw [if_neg (by decide), if_neg (by decide), if_pos h]
  · intro h
    simp only [handlerV2]
    rw [if_neg (by decide), if_neg (by decide), if_neg (by decide), if_neg (by decide),
        if_pos h]
  · intro h
    simp only [handlerP0]
    rw [if_neg (by decide), if_pos h]
  · intro h
    simp only [handlerV2]
    rw [if_neg (by decide), if_neg (by decide), if_neg (by decide), if_neg (by decide),
        if_neg h]
  · intro h
    simp only [handlerP0]
    rw [if_neg (by decide), if_neg (by simp [h])]
    by_cases hk : apiKey
    · rw [if_neg (by simp [hk]), if_pos hk]
    · rw [if_pos (by simp [hk]), if_neg hk]

/-- Witness for C2 (amended) at concrete requests. -/
theorem claim_c2_witness :
    handlerV1 "POST" (some "") (some "https://x.example") [] cFetchNone ""
      = ⟨400, [], none, [], some "Missing question or siteBaseUrl", 0, 0⟩ ∧
    handlerP1 "POST" none (some "https://x.example") true none cResolve cFetchNone cGemEmpty
      = ⟨400, corsP1, .errJ "Missing question or siteBaseUrl", 0, 0⟩ ∧
    handlerV2 "POST" true true (some "   ") (some "https://x.example") none none restMark
      = ⟨400, corsV2 ++ ctJson, "Missing \x27question\x27.", 0⟩ ∧
    handlerP0 "POST" none (some "https://x.example") true restMarkP0
      = ⟨400, "Missing question", 0⟩ ∧
    handlerV2 "POST" true true (some "hi") none none none restMark
      = restMark "hi" "https://vation.com" "gemini-2.0-flash" "core"
          (pickUrlsV2 "https://vation.com" "core") ∧
    handlerP0 "POST" (some "hi") none true restMarkP0 = restMarkP0 "https://vation.com" := by
  have h := claim_c2_validation (some "") (some "https://x.example") none none [] cFetchNone ""
    true none cResolve cGemEmpty restMark restMarkP0
  have h2 := claim_c2_validation none (some "https://x.example") none none [] cFetchNone ""
    true none cResolve cGemEmpty restMark restMarkP0
  have h3 := claim_c2_validation (some "   ") (some "https://x.example") none none [] cFetchNone ""
    true none cResolve cGemEmpty restMark restMarkP0
  have h5 := claim_c2_validation (some "hi") none none none [] cFetchNone ""
    true none cResolve cGemEmpty restMark restMarkP0
  exact ⟨h.1 (by decide), h2.2.1 (by decide), h3.2.2.1 (by decide), h2.2.2.2.1 (by decide),
    h5.2.2.2.2.1 (by decide), (h5.2.2.2.2.2 (by decide)).trans (by decide)⟩

/-- Counterexample for C2 as stated: V2 receives a request whose
`siteBaseUrl` field is missing, yet it does not respond 400 — validation
passes and the handler proceeds (in the source, on to page fetching and the
model call) with the default base `https://vation.com`. -/
theorem claim_c2_counterexample :
    (handlerV2 "POST" true true (some "hi") none none none restMark).status = 200 ∧
    (handlerV2 "POST" true true (some "hi") none none none restMark).status ≠ 400 ∧
    (handlerV2 "POST" true true (some "hi") none none none restMark).tag = "proceeded" ∧
    (handlerV2 "POST" true true (some "hi") none none none restMark).netCalls = 1 := by
  decide

/-! ## Claim C3 -/

theorem stringAppendRightCancel (a b c : String) (h : a ++ c = b ++ c) : a = b := by
  have hd : a.data ++ c.data = b.data ++ c.data := congrArg String.data h
  have := List.append_cancel_right hd
  cases a; cases b; simp_all

/-- Counterexample for C3 as stated: two requests that differ in the
question, the base URL and the model field produce the same cache key,
because P2's handler builds the key from the preset and the hardcoded model
alone (part_002 line 124). -/
theorem claim_c3_counterexample :
    handler2CacheKeyOfRequest (some "what does vation do") (some "https://a.example")
        (some "core") none
      = handler2CacheKeyOfRequest (some "summarize the offerings") (some "https://b.example")
        (some "core") (some "gemini-2.5-pro") ∧
    ("https://a.example" : String) ≠ "https://b.example" := by
  exact ⟨rfl, by decide⟩

/-- Claim C3 (amended): P2's cache key is a deterministic function of the
resolved preset (the request's `preset` field, defaulted to `"core"`) and
the hardcoded model only: two requests produce the same key exactly when
their resolved presets agree, regardless of question, base URL or model
field. -/
theorem claim_c3_key_depends_on_preset_only
    (q1 s1 p1 m1 q2 s2 p2 m2 : Option String) :
    handler2CacheKeyOfRequest q1 s1 p1 m1 = handler2CacheKeyOfRequest q2 s2 p2 m2
      ↔ p1.getD "core" = p2.getD "core" := by
  unfold handler2CacheKeyOfRequest handler2CacheKey
  constructor
  · intro h
    have h1 := stringAppendRightCancel _ _ _ h
    exact stringAppendRightCancel _ _ _ h1
  · intro h
    rw [h]

/-! ## Claim C4 -/

theorem cacheGet_after_set (c : Cache2) (key : String) (t1 t2 : Nat) (p : Payload2)
    (h : t2 - t1 ≤ cacheTtlMs) :
    cacheGet (cacheSet c key t1 p) key t2 = (some p, cacheSet c key t1 p) := by
  have hfind : cacheFind (cacheSet c key t1 p) key = some (t1, p) := by
    simp [cacheSet, cacheFind]
  simp only [cacheGet, hfind]
  rw [if_neg (by omega)]

/-- Claim C4 (amended): when an identical P2 request (same question, base
URL, preset — the model is hardcoded) arrives while the entry cached by the
first successful answer is within the TTL, the second response is byte for
byte the first one (`cacheGet` returns the stored payload unchanged) and no
second Gemini call is made, whatever the second request's fetch and model
oracles would have returned.  The response carries no cache-hit flag: the
payload type built by the handler has only the fields `answer`, `sources`,
`model`, `preset` (part_002 lines 152-159), so a hit is indistinguishable
from the original response (see the counterexample for the refuted flag
conjunct of the original claim). -/
theorem claim_c4_cache_idempotent
    (question siteBaseUrl preset : Option String)
    (f1 f2 : String → Option String) (g1 g2 : Option String)
    (c : Cache2) (t1 t2 : Nat)
    (hmiss : (cacheGet c (handler2CacheKey preset) t1).1 = none)
    (hvalid : jsFilterBoolean ((pickUrlsP2 (siteBaseUrl.getD "https://vation.com")
        (preset.getD "core")).map (fetchPageTextP2 f1)) ≠ [])
    (httl : t2 - t1 ≤ cacheTtlMs) :
    (handler2 "POST" true question siteBaseUrl preset f2 g2
        (handler2 "POST" true question siteBaseUrl preset f1 g1 c t1).cache t2).res
      = (handler2 "POST" true question siteBaseUrl preset f1 g1 c t1).res ∧
    (handler2 "POST" true question siteBaseUrl preset f2 g2
        (handler2 "POST" true question siteBaseUrl preset f1 g1 c t1).cache t2).geminiCalls
      = 0 := by
  have hc : cacheGet c (handler2CacheKey preset) t1
      = (none, (cacheGet c (handler2CacheKey preset) t1).2) := by
    rcases hcg : cacheGet c (handler2CacheKey preset) t1 with ⟨o, c1⟩
    rw [hcg] at hmiss
    simp at hmiss
    simp [hmiss]
  have hlen : (jsFilterBoolean ((pickUrlsP2 (siteBaseUrl.getD "https://vation.com")
      (preset.getD "core")).map (fetchPageTextP2 f1))).length ≠ 0 := by
    simpa [List.length_eq_zero] using hvalid
  have h1 : handler2 "POST" true question siteBaseUrl preset f1 g1 c t1
      = ⟨⟨200, .payload ⟨jsOr (callGeminiP2 g1) p2RetryMsg,
            pickUrlsP2 (siteBaseUrl.getD "https://vation.com") (preset.getD "core"),
            some p2Model, preset.getD "core"⟩⟩,
          cacheSet (cacheGet c (handler2CacheKey preset) t1).2 (handler2CacheKey preset) t1
            ⟨jsOr (callGeminiP2 g1) p2RetryMsg,
             pickUrlsP2 (siteBaseUrl.getD "https://vation.com") (preset.getD "core"),
             some p2Model, preset.getD "core"⟩, 1⟩ := by
    simp only [handler2]
    rw [if_neg (by decide), if_neg (by decide), hc]
    simp only []
    rw [if_neg hlen]
  rw [h1]
  have h2 : handler2 "POST" true question siteBaseUrl preset f2 g2
      (cacheSet (cacheGet c (handler2CacheKey preset) t1).2 (handler2CacheKey preset) t1
        ⟨jsOr (callGeminiP2 g1) p2RetryMsg,
         pickUrlsP2 (siteBaseUrl.getD "https://vation.com") (preset.getD "core"),
         some p2Model, preset.getD "core"⟩) t2
      = ⟨⟨200, .payload ⟨jsOr (callGeminiP2 g1) p2RetryMsg,
            pickUrlsP2 (siteBaseUrl.getD "https://vation.com") (preset.getD "core"),
            some p2Model, preset.getD "core"⟩⟩,
          cacheSet (cacheGet c (handler2CacheKey preset) t1).2 (handler2CacheKey preset) t1
            ⟨jsOr (callGeminiP2 g1) p2RetryMsg,
             pickUrlsP2 (siteBaseUrl.getD "https://vation.com") (preset.getD "core"),
             some p2Model, preset.getD "core"⟩, 0⟩ := by
    simp only [handler2]
    rw [if_neg (by decide), if_neg (by decide),
        cacheGet_after_set _ _ _ _ _ httl]
  rw [h2]
  exact ⟨rfl, rfl⟩

/-- Witness for C4 (amended): a concrete request answered at time 0 and
repeated at time 60000 (within the 10-minute TTL) with oracles that would
fail, yet the second response equals the first and makes no Gemini call. -/
theorem claim_c4_witness :
    (handler2 "POST" true (some "q") none none cFetchB cGemB
        (handler2 "POST" true (some "q") none none cFetchA cGemA [] 0).cache 60000).res
      = (handler2 "POST" true (some "q") none none cFetchA cGemA [] 0).res ∧
    (handler2 "POST" true (some "q") none none cFetchB cGemB
        (handler2 "POST" true (some "q") none none cFetchA cGemA [] 0).cache 60000).geminiCalls
      = 0 :=
  claim_c4_cache_idempotent (some "q") none none cFetchA cFetchB cGemA cGemB [] 0 60000
    (by decide) (by decide) (by decide)

/-- Counterexample for the cache-hit-flag conjunct of C4: in the concrete
repeat-request scenario the second (cache-served) response is identical to
the first, and its serialized JSON body does not contain the string
`cached` anywhere — the handler returns the stored payload verbatim and
never tags it, so no flag marks the response as a cache hit. -/
theorem claim_c4_counterexample :
    (handler2 "POST" true (some "q") none none cFetchB cGemB
        (handler2 "POST" true (some "q") none none cFetchA cGemA [] 0).cache 60000).res
      = (handler2 "POST" true (some "q") none none cFetchA cGemA [] 0).res ∧
    includesSub "cached".data
      (body2Json (handler2 "POST" true (some "q") none none cFetchB cGemB
        (handler2 "POST" true (some "q") none none cFetchA cGemA [] 0).cache 60000).res.body).data
      = false := by
  decide

/-! ## Claim C5 -/

/-- Counterexample for C5 as stated: P1's `callGeminiWithRetry` (part_001
lines 202-216, invoked with `retries: 1`) does not retry a first attempt
that fails with the server-error status 500 — its condition only continues
on statuses whose decimal form starts with `429`, or on 503 — so exactly
one call is made where the claim requires a retry. -/
theorem claim_c5_counterexample :
    p1CallWithRetry o500 1 = (⟨false, 500, ""⟩, 1) ∧ p1Retryable 500 = false := by
  decide

/-- Claim C5 (amended): V2's `callGeminiWithRetry` (ask.js lines 417-428)
retries exactly once, after the backoff sleep, iff the first attempt failed
with status 429 or a 5xx status, and never makes more than two attempts; P1's
variant with `retries: 1` also caps at two attempts but repeats only when the
failed status's decimal representation starts with `429` or equals 503 — a
500/502/504 first failure is returned without retry (see the
counterexample). -/
theorem claim_c5_retry_policy :
    (∀ o : Nat → GemRawV2, (callGeminiWithRetryV2 o).2.1 ≤ 2) ∧
    (∀ o : Nat → GemRawV2,
      ((callGeminiWithRetryV2 o).2 = (2, true) ↔
        ∃ s, callGeminiV2 (o 0) = .err s ∧ (s = 429 ∨ 500 ≤ s))) ∧
    (∀ o : Nat → POutcome, (p1CallWithRetry o 1).2 ≤ 2) ∧
    (∀ o : Nat → POutcome,
      ((p1CallWithRetry o 1).2 = 2 ↔
        ((o 0).ok = false ∧ p1Retryable (o 0).status = true))) := by
  refine ⟨?_, ?_, ?_, ?_⟩
  · intro o
    simp only [callGeminiWithRetryV2]
    split
    · simp
    · split <;> simp
  · intro o
    simp only [callGeminiWithRetryV2]
    split
    · rename_i t ht
      simp [ht]
    · rename_i s hs
      by_cases htr : s = 429 ∨ 500 ≤ s
      · rw [if_pos (by simpa using htr)]
        simp only [Prod.mk.injEq, and_true, true_iff]
        exact ⟨s, hs, htr⟩
      · rw [if_neg (by simpa using htr)]
        simp only [Prod.mk.injEq]
        constructor
        · intro h
          omega
        · rintro ⟨s', hs', htr'⟩
          rw [hs] at hs'
          cases hs'
          exact absurd htr' htr
  · intro o
    simp only [p1CallWithRetry, p1Loop]
    split
    · simp
    · split
      · simp
      · split
        · simp
        · split <;> simp
  · intro o
    simp only [p1CallWithRetry, p1Loop]
    by_cases h1 : (o 0).ok
    · rw [if_pos h1]
      simp [h1]
    · rw [if_neg h1]
      by_cases h2 : p1Retryable (o 0).status
      · rw [if_neg (by simp [h2])]
        simp only [Bool.not_eq_true] at h1
        simp only [h1, h2, and_self, iff_true]
        split
        · rfl
        · split
          · rfl
          · rfl
      · rw [if_pos (by simp [h2])]
        simp only [Bool.not_eq_true] at h1
        simp [h1, h2]

/-- Witness for C5 (amended): a 429 first failure is retried by V2's
wrapper (two attempts, backoff taken), and a 503 first failure is retried by
P1's loop (two calls). -/
theorem claim_c5_witness :
    (callGeminiWithRetryV2 (fun _ => .httpErr 429)).2 = (2, true) ∧
    (p1CallWithRetry (fun _ => ⟨false, 503, ""⟩) 1).2 = 2 :=
  ⟨(claim_c5_retry_policy.2.1 _).mpr ⟨429, rfl, Or.inl rfl⟩,
   (claim_c5_retry_policy.2.2.2 _).mpr (by decide)⟩

/-! ## Claim C6 -/

/-- Claim C6 (amended): V2's `callGemini` treats a successfully parsed
response with no extractable text as a failure (it throws
`"Empty Gemini response"`, modelled as `.err 0`) and never succeeds with the
empty string; P2's handler substitutes a nonempty fallback for a null/empty
model text, so its final answer is never empty; but P1's `callOnce` marks a
parsed response `ok: true` even when the joined text is empty, and the
handler forwards that text verbatim, so P1's final answer can be the empty
string (see the counterexample). -/
theorem claim_c6_empty_model_output :
    (∀ t : Option String, callGeminiV2 (.okJson t) ≠ .ok "") ∧
    (callGeminiV2 (.okJson none) = .err 0) ∧
    (callGeminiV2 (.okJson (some "")) = .err 0) ∧
    (∀ g : Option String, jsOr (callGeminiP2 g) p2RetryMsg ≠ "") ∧
    (∀ t : String, (callOnceParse (.parsed (some t))).ok = true) := by
  refine ⟨?_, by decide, by decide, ?_, fun t => rfl⟩
  · intro t
    simp only [callGeminiV2]
    split
    · simp
    · rename_i h
      intro hc
      rw [GemResV2.ok.injEq] at hc
      exact h hc
  · intro g
    match g with
    | none => decide
    | some t =>
      simp only [callGeminiP2]
      by_cases h : t = ""
      · rw [if_pos h]
        decide
      · rw [if_neg h]
        simp only [jsOr, Option.getD_some]
        rw [if_neg h]
        exact h

/-- Witness for C6 (amended) at concrete model outputs. -/
theorem claim_c6_witness :
    callGeminiV2 (.okJson (some "   ")) ≠ .ok "" ∧
    jsOr (callGeminiP2 (some "")) p2RetryMsg ≠ "" ∧
    (callOnceParse (.parsed (some ""))).ok = true :=
  ⟨claim_c6_empty_model_output.1 (some "   "),
   claim_c6_empty_model_output.2.2.2.1 (some ""),
   claim_c6_empty_model_output.2.2.2.2 ""⟩

set_option maxRecDepth 40000 in
/-- Counterexample for C6 as stated: P1's `callOnce` returns a parsed
response with no extractable text as a success with empty text, and the
handler forwards it, producing a 200 response whose `answer` field is the
empty string. -/
theorem claim_c6_counterexample :
    callOnceParse (.parsed none) = ⟨true, 200, ""⟩ ∧
    p1AnswerOf (handlerP1 "POST" (some "what") (some "https://vation.com") true none
        cResolve cFetchHtml cGemEmpty).body = some "" := by
  decide

/-! ## Claim C7 -/

/-- Claim C7 (amended): no handler post-processes the model text for word
count — the final `answer` field is the model text verbatim (P1's success
path forwards `geminiResponse.text`, ask.js lines 109-113; V1 returns the
`askGemini` string unchanged, ask.js lines 38-43).  The 120-word cap exists
only as an instruction inside the prompts and as the `maxOutputTokens`
generation limit, not as defensive trimming, and no truncation marker is
ever appended. -/
theorem claim_c7_no_word_trimming :
    (∀ (pages : List PageP1) (model t : String) (n fc : Nat),
      p1AnswerOf (p1Finalize pages model ⟨true, 200, t⟩ n fc).body = some t) ∧
    (∀ (docs : List DocV1) (ans : String) (fc : Nat),
      (v1Finalize docs ans fc).answer = some ans) := by
  exact ⟨fun pages model t n fc => rfl, fun docs ans fc => rfl⟩

/-- Witness for C7 (amended): the 121-word model answer is forwarded
verbatim by P1's finalization step. -/
theorem claim_c7_witness :
    p1AnswerOf (p1Finalize [] "gemini-2.0-flash" ⟨true, 200, longAnswer⟩ 1 5).body
      = some longAnswer :=
  claim_c7_no_word_trimming.1 [] "gemini-2.0-flash" longAnswer 1 5

set_option maxRecDepth 40000 in
/-- Counterexample for C7 as stated: a model response of 121 words (over the
120-word cap stated in the prompts) flows through P1's handler into the
final `answer` unchanged — not trimmed to the cap and with no truncation
marker appended (the answer equals the model text exactly). -/
theorem claim_c7_counterexample :
    p1AnswerOf (handlerP1 "POST" (some "q") (some "https://vation.com") true none
        cResolve cFetchHtml cGemLong).body = some longAnswer ∧
    wordCount longAnswer = 121 ∧
    p1WordCap < wordCount longAnswer := by
  decide

/-! ## Claim C8 -/

/-- Claim C8 (amended): P1 answers OPTIONS with status 200 and V2 with
status 204, both with their CORS headers set (allow-origin, allow-methods,
allow-headers) and without reading any body field or making any outbound
call — the result is the same whatever the body fields, oracles and
continuation are; but V1 (ask.js lines 1-3), like P0 and P2, replies 405 to
OPTIONS without CORS headers (see the counterexample). -/
theorem claim_c8_options_preflight :
    (∀ (q s : Option String) (ak : Bool) (em : Option String)
      (resolve : String → String) (fO : String → Option String) (gO : Nat → POutcome),
      handlerP1 "OPTIONS" q s ak em resolve fO gO = ⟨200, corsP1, .empty, 0, 0⟩) ∧
    (∀ (ak pk : Bool) (q s m p : Option String)
      (rest : String → String → String → String → List String → RV2),
      handlerV2 "OPTIONS" ak pk q s m p rest = ⟨204, corsV2, "", 0⟩) := by
  exact ⟨fun q s ak em resolve fO gO => rfl, fun ak pk q s m p rest => rfl⟩

/-- Witness for C8 (amended) at a concrete OPTIONS request. -/
theorem claim_c8_witness :
    handlerP1 "OPTIONS" (some "q") none false none cResolve cFetchNone cGemEmpty
      = ⟨200, corsP1, .empty, 0, 0⟩ ∧
    handlerV2 "OPTIONS" false false (some "q") none none none restMark
      = ⟨204, corsV2, "", 0⟩ :=
  ⟨claim_c8_options_preflight.1 (some "q") none false none cResolve cFetchNone cGemEmpty,
   claim_c8_options_preflight.2 false false (some "q") none none none restMark⟩

/-- Counterexample for C8 as stated: V1 answers an OPTIONS request with
status 405 (`req.method !== "POST"`), not 200/204, and sets no headers at
all, CORS included. -/
theorem claim_c8_counterexample :
    (handlerV1 "OPTIONS" (some "q") (some "https://v.example") [] cFetchNone "x").status = 405 ∧
    (handlerV1 "OPTIONS" (some "q") (some "https://v.example") [] cFetchNone "x").headers = [] := by
  decide

/-! ## Claim C10 -/

/-- Claim C10: `detectPreset` is total and always returns one of `"core"`,
`"cx"`, `"ex"`; and when the supplied preset, lower-cased and trimmed, is
already one of those three values, it is returned as-is, taking precedence
over any keyword match in the question. -/
theorem claim_c10_detectPreset_total_and_precedence (q p : String) :
    (detectPreset q p = "core" ∨ detectPreset q p = "cx" ∨ detectPreset q p = "ex") ∧
    ((jsTrim (jsToLower p) = "cx" ∨ jsTrim (jsToLower p) = "ex" ∨
        jsTrim (jsToLower p) = "core") →
      detectPreset q p = jsTrim (jsToLower p)) := by
  constructor
  · simp only [detectPreset]
    by_cases h : jsTrim (jsToLower p) = "cx" ∨ jsTrim (jsToLower p) = "ex" ∨
        jsTrim (jsToLower p) = "core"
    · rw [if_pos (by simp only [Bool.or_eq_true, decide_eq_true_eq]; tauto)]
      tauto
    · rw [if_neg (by simp only [Bool.or_eq_true, decide_eq_true_eq]; tauto)]
      split
      · tauto
      · split
        · tauto
        · tauto
  · intro h
    simp only [detectPreset]
    rw [if_pos (by simp only [Bool.or_eq_true, decide_eq_true_eq]; tauto)]

/-- Witness for C10: an explicit preset `" CX "` beats an `"ex"`-keyword
question. -/
theorem claim_c10_witness :
    detectPreset "how is the employee experience" " CX " = "cx" :=
  ((claim_c10_detectPreset_total_and_precedence "how is the employee experience" " CX ").2
    (by decide)).trans (by decide)
